import Mathlib

/-!
Verification of the DeFi_Autopilot rebalancing core
(src/contracts/RebalancingEngine.sol: contracts PortfolioManager,
YieldOracle and RebalancingEngine, Solidity 0.8.19).

Shallow embedding conventions:
* uint256 values are Nat. Additions and multiplications that cannot be
  observed to overflow by any claim are plain Nat operations; every
  SafeMath/checked subtraction is modelled by `csub`, because an
  underflow there raises Panic(0x11) and that behaviour is load-bearing.
* a reverting call is `Except.error`; `SolError.err s` is a
  require/revert with reason string s, `SolError.panic c` is Panic(c).
  Under EVM semantics an erroring call leaves no state change, so state
  transition functions return the new state only in the `ok` case.
* `onlyOwner` / authorization modifiers and `whenNotPaused` are ambient
  assumptions (caller authorized, not paused): the claims under study
  quantify over authorized, unpaused executions.
* keccak256 string comparison is modelled as string equality.
* addresses are Nat (0 is the zero address); Solidity mappings are
  functions with the all-zero struct as default.
-/

namespace DeFiAutopilot

/-- Revert data of a failed call: `err` is Error(string) raised by
require/revert, `panic` is Panic(code) raised by checked arithmetic
(code 17 = 0x11, arithmetic under/overflow). -/
inductive SolError where
  | err : String → SolError
  | panic : Nat → SolError
deriving DecidableEq

/-- Checked subtraction of SafeMath.sub / Solidity 0.8 subtraction on
uint256: underflow raises Panic(0x11). -/
def csub (a b : Nat) : Except SolError Nat :=
  if b ≤ a then .ok (a - b) else .error (.panic 17)

/-- Portfolio struct of PortfolioManager (RebalancingEngine.sol lines
880-888). -/
structure Portfolio where
  totalValue : Nat
  currentYield : Nat
  currentProtocol : String
  riskProfile : Nat
  autoRebalanceEnabled : Bool
  lastRebalance : Nat
  totalProfit : Nat
deriving DecidableEq

/-- Default (all-zero) mapping entry: a portfolio that does not exist. -/
def Portfolio.empty : Portfolio := ⟨0, 0, "", 0, false, 0, 0⟩

namespace PortfolioManager

/-- enum RiskProfile values (line 877). -/
def CONSERVATIVE : Nat := 0

def BALANCED : Nat := 1

def AGGRESSIVE : Nat := 2

def MIN_DEPOSIT : Nat := 10 ^ 16

def MIN_YIELD_IMPROVEMENT : Nat := 50

def MAX_GAS_THRESHOLD : Nat := 2 * 10 ^ 16

/-- createPortfolio (lines 915-931); `value` is msg.value, `now` is
block.timestamp. Operates on the callers current mapping entry. -/
def createPortfolio (p : Portfolio) (value riskProfile now : Nat) :
    Except SolError Portfolio :=
  if value < MIN_DEPOSIT then .error (.err "Minimum deposit required")
  else if 2 < riskProfile then .error (.err "Invalid risk profile")
  else if p.totalValue ≠ 0 then .error (.err "Portfolio already exists")
  else .ok ⟨value, 320, "Aave", riskProfile, true, now, 0⟩

/-- depositFunds (lines 936-943). -/
def depositFunds (p : Portfolio) (value : Nat) : Except SolError Portfolio :=
  if p.totalValue = 0 then .error (.err "Portfolio does not exist")
  else if value = 0 then .error (.err "Amount must be greater than 0")
  else .ok { p with totalValue := p.totalValue + value }

/-- withdrawFunds (lines 949-959); the low-level value transfer is
assumed to succeed. -/
def withdrawFunds (p : Portfolio) (amount : Nat) : Except SolError Portfolio :=
  if p.totalValue < amount then .error (.err "Insufficient balance")
  else if amount = 0 then .error (.err "Amount must be greater than 0")
  else .ok { p with totalValue := p.totalValue - amount }

/-- updateRiskProfile (lines 965-973). -/
def updateRiskProfile (p : Portfolio) (newProfile : Nat) :
    Except SolError Portfolio :=
  if 2 < newProfile then .error (.err "Invalid risk profile")
  else if p.totalValue = 0 then .error (.err "Portfolio does not exist")
  else .ok { p with riskProfile := newProfile }

/-- toggleAutoRebalance (lines 978-984). -/
def toggleAutoRebalance (p : Portfolio) : Except SolError Portfolio :=
  if p.totalValue = 0 then .error (.err "Portfolio does not exist")
  else .ok { p with autoRebalanceEnabled := !p.autoRebalanceEnabled }

/-- checkRebalanceProfitability (lines 1032-1050). -/
def checkRebalanceProfitability (p : Portfolio) (newYield gasCost : Nat) :
    Bool :=
  if newYield ≤ p.currentYield + MIN_YIELD_IMPROVEMENT then false
  else
    decide (gasCost * 115 / 100 ≤
      p.totalValue * (newYield - p.currentYield) / 10000)

/-- executeRebalance of PortfolioManager (lines 994-1023). The source
stores currentProtocol, currentYield and lastRebalance first (lines
1012-1014) and only afterwards reads currentYield back from storage to
compute yieldDifference (line 1017), so the stored value it subtracts is
already expectedYield. -/
def executeRebalance (p : Portfolio) (fromProtocol toProtocol : String)
    (expectedYield gasCost now : Nat) : Except SolError Portfolio :=
  if p.totalValue = 0 then .error (.err "Portfolio does not exist")
  else if p.autoRebalanceEnabled = false then
    .error (.err "Auto-rebalance disabled")
  else if MAX_GAS_THRESHOLD < gasCost then .error (.err "Gas cost too high")
  else if checkRebalanceProfitability p expectedYield gasCost = false then
    .error (.err "Rebalancing not profitable")
  else
    let p1 : Portfolio := { p with
      currentProtocol := toProtocol,
      currentYield := expectedYield,
      lastRebalance := now }
    match csub expectedYield p1.currentYield with
    | .error e => .error e
    | .ok yieldDifference =>
      match csub (p1.totalValue * yieldDifference / 10000) gasCost with
      | .error e => .error e
      | .ok netProfit => .ok { p1 with totalProfit := p1.totalProfit + netProfit }

end PortfolioManager

/-- YieldData struct of YieldOracle (lines 515-522). -/
structure YieldData where
  protocol : String
  apy : Nat
  tvl : Nat
  riskScore : Nat
  timestamp : Nat
  active : Bool
deriving DecidableEq

/-- HistoricalYield struct (lines 524-527). -/
structure HistoricalYield where
  apy : Nat
  timestamp : Nat
deriving DecidableEq

/-- Storage of the YieldOracle contract: the protocolYields and
yieldHistory mappings and the supportedProtocols array. -/
structure OracleState where
  protocolYields : String → YieldData
  yieldHistory : String → List HistoricalYield
  supportedProtocols : List String

namespace YieldOracle

def MAX_STALENESS : Nat := 3600

def MIN_TVL_THRESHOLD : Nat := 10 ^ 6 * 10 ^ 18

/-- Internal staleness test (line 836-838). Registry-assigned timestamps
never exceed block.timestamp, so truncated Nat subtraction agrees with
the uint256 subtraction on all reachable states. -/
def isStaleData (now timestamp : Nat) : Bool :=
  decide (MAX_STALENESS < now - timestamp)

/-- updateYield (lines 580-610): the validProtocol modifier runs first,
then the range checks; the previous record is pushed onto the history
and the current record is overwritten with a registry-assigned
timestamp `now`. -/
def updateYield (s : OracleState) (protocol : String)
    (apy tvl riskScore now : Nat) : Except SolError OracleState :=
  if (s.protocolYields protocol).active = false then
    .error (.err "Protocol not active")
  else if riskScore < 1 ∨ 10 < riskScore then
    .error (.err "Invalid risk score")
  else if 50000 < apy then .error (.err "APY too high (>500%)")
  else if tvl < MIN_TVL_THRESHOLD then .error (.err "TVL below minimum")
  else
    .ok { s with
      yieldHistory := fun q =>
        if q = protocol then
          s.yieldHistory q ++
            [⟨(s.protocolYields protocol).apy,
              (s.protocolYields protocol).timestamp⟩]
        else s.yieldHistory q,
      protocolYields := fun q =>
        if q = protocol then
          { s.protocolYields protocol with
            apy := apy,
            tvl := tvl,
            riskScore := riskScore,
            timestamp := now }
        else s.protocolYields q }

/-- The per-record filter of the getBestYieldForRisk scan (lines
642-647 except the running-maximum comparison): active, within the risk
ceiling, above the tvl floor and not stale. -/
def eligible (s : OracleState) (riskProfile minTvl now : Nat)
    (protocol : String) : Bool :=
  (s.protocolYields protocol).active &&
    decide ((s.protocolYields protocol).riskScore ≤ riskProfile) &&
    decide (minTvl ≤ (s.protocolYields protocol).tvl) &&
    !(isStaleData now (s.protocolYields protocol).timestamp)

/-- One iteration of the getBestYieldForRisk loop (lines 638-653): a
record replaces the accumulator only when it passes the filter and its
apy strictly exceeds the running maximum. -/
def bestStep (s : OracleState) (riskProfile minTvl now : Nat)
    (acc : String × Nat × Nat) (protocol : String) : String × Nat × Nat :=
  if eligible s riskProfile minTvl now protocol &&
      decide (acc.2.1 < (s.protocolYields protocol).apy) then
    (protocol, (s.protocolYields protocol).apy,
      (s.protocolYields protocol).riskScore)
  else acc

/-- getBestYieldForRisk (lines 620-656): the scan over
supportedProtocols in registration order, started from the all-zero
accumulator, so an empty protocol name together with yield 0 signals
that nothing was selected. -/
def getBestYieldForRisk (s : OracleState) (riskProfile minTvl now : Nat) :
    Except SolError (String × Nat × Nat) :=
  if riskProfile < 1 ∨ 10 < riskProfile then
    .error (.err "Invalid risk profile")
  else
    .ok (s.supportedProtocols.foldl (bestStep s riskProfile minTvl now)
      ("", 0, 0))

end YieldOracle

/-- RebalanceRequest struct of RebalancingEngine (lines 20-30). A
request is Pending when both flags are false, Executed when `executed`
and Cancelled when `cancelled`. -/
structure RebalanceRequest where
  user : Nat
  fromProtocol : String
  toProtocol : String
  amount : Nat
  expectedYield : Nat
  estimatedGas : Nat
  timestamp : Nat
  executed : Bool
  cancelled : Bool
deriving DecidableEq

/-- Default (all-zero) mapping entry. -/
def RebalanceRequest.empty : RebalanceRequest :=
  ⟨0, "", "", 0, 0, 0, 0, false, false⟩

/-- OptimizationMetrics struct (lines 32-38). -/
structure OptimizationMetrics where
  totalRebalances : Nat
  totalProfitGenerated : Nat
  totalGasSaved : Nat
  averageYieldImprovement : Nat
  lastOptimizationRun : Nat
deriving DecidableEq

/-- Combined storage of the RebalancingEngine contract together with the
PortfolioManager and YieldOracle instances it calls into. -/
structure EngineState where
  portfolios : Nat → Portfolio
  oracle : OracleState
  rebalanceRequests : Nat → RebalanceRequest
  userRebalanceHistory : Nat → List Nat
  requestCounter : Nat
  metrics : OptimizationMetrics

namespace RebalancingEngine

def MIN_PROFIT_THRESHOLD : Nat := 100

def MAX_GAS_COST : Nat := 2 * 10 ^ 16

def PROFIT_MARGIN_REQUIREMENT : Nat := 1150

def REBALANCE_COOLDOWN : Nat := 3600

/-- Internal profitability gate of the engine (lines 420-436). The
unused `_user` parameter mirrors the source signature. -/
def isProfitableRebalance (_user currentYield newYield gasCost
    portfolioValue : Nat) : Bool :=
  if newYield ≤ currentYield then false
  else
    decide (gasCost * PROFIT_MARGIN_REQUIREMENT / 1000 ≤
      portfolioValue * (newYield - currentYield) / 10000)

/-- Profit figure used in events and metrics (lines 438-452). -/
def calculateProfit (currentYield newYield portfolioValue gasCost : Nat) :
    Nat :=
  if newYield ≤ currentYield then 0
  else
    if gasCost < portfolioValue * (newYield - currentYield) / 10000 then
      portfolioValue * (newYield - currentYield) / 10000 - gasCost
    else 0

/-- Metrics update after a successful execution (lines 454-467). -/
def updateMetrics (m : OptimizationMetrics) (req : RebalanceRequest)
    (oldYield : Nat) : OptimizationMetrics :=
  { m with
    totalRebalances := m.totalRebalances + 1,
    totalProfitGenerated := m.totalProfitGenerated +
      calculateProfit oldYield req.expectedYield req.amount req.estimatedGas,
    averageYieldImprovement :=
      (m.averageYieldImprovement * m.totalRebalances +
        (if oldYield < req.expectedYield then req.expectedYield - oldYield
         else 0)) / (m.totalRebalances + 1) }

/-- Risk-profile to oracle risk-ceiling mapping (lines 469-475). Its
branches test against 1, 2 and 3 although the RiskProfile enum values
passed in are 0, 1 and 2. -/
def mapRiskProfile (portfolioRisk : Nat) : Nat :=
  if portfolioRisk = 1 then 3
  else if portfolioRisk = 2 then 5
  else if portfolioRisk = 3 then 8
  else 5

/-- Deterministic pair-cost gas model (lines 477-500), in wei. -/
def estimateGasCost (fromProtocol toProtocol : String) : Nat :=
  if fromProtocol = "Curve" ∨ toProtocol = "Curve" then
    (if fromProtocol = "Yearn" ∨ toProtocol = "Yearn" then
      5 * 10 ^ 15 + 3 * 10 ^ 15 + 2 * 10 ^ 15
     else 5 * 10 ^ 15 + 3 * 10 ^ 15)
  else
    (if fromProtocol = "Yearn" ∨ toProtocol = "Yearn" then
      5 * 10 ^ 15 + 2 * 10 ^ 15
     else 5 * 10 ^ 15)

/-- Storage writes performed by requestRebalance once every check has
passed (lines 163-181): allocate the next id, store the Pending record
with an amount snapshot, extend the user history. -/
def storeRequest (s : EngineState) (user : Nat)
    (fromProtocol toProtocol : String) (expectedYield estimatedGas now : Nat) :
    EngineState × Nat :=
  ({ s with
      requestCounter := s.requestCounter + 1,
      rebalanceRequests := fun r =>
        if r = s.requestCounter then
          ⟨user, fromProtocol, toProtocol, (s.portfolios user).totalValue,
            expectedYield, estimatedGas, now, false, false⟩
        else s.rebalanceRequests r,
      userRebalanceHistory := fun u =>
        if u = user then s.userRebalanceHistory u ++ [s.requestCounter]
        else s.userRebalanceHistory u },
   s.requestCounter)

/-- requestRebalance (lines 109-182): validation order follows the
source, and the cooldown compares against the timestamp of the last id
in the callers history whatever that requests eventual outcome was. -/
def requestRebalance (s : EngineState) (user : Nat)
    (fromProtocol toProtocol : String) (expectedYield estimatedGas now : Nat) :
    Except SolError (EngineState × Nat) :=
  if user = 0 then .error (.err "Invalid user address")
  else if MAX_GAS_COST < estimatedGas then .error (.err "Gas cost too high")
  else if fromProtocol = "" then .error (.err "Empty from protocol")
  else if toProtocol = "" then .error (.err "Empty to protocol")
  else if (s.portfolios user).autoRebalanceEnabled = false then
    .error (.err "Auto-rebalance disabled")
  else if (s.portfolios user).totalValue = 0 then
    .error (.err "Empty portfolio")
  else if (s.portfolios user).currentProtocol ≠ fromProtocol then
    .error (.err "From protocol mismatch")
  else if isProfitableRebalance user (s.portfolios user).currentYield
      expectedYield estimatedGas (s.portfolios user).totalValue = false then
    .error (.err "Rebalancing not profitable")
  else
    match (s.userRebalanceHistory user).getLast? with
    | some lastRequestId =>
      if now - (s.rebalanceRequests lastRequestId).timestamp <
          REBALANCE_COOLDOWN then
        .error (.err "Cooldown period active")
      else
        .ok (storeRequest s user fromProtocol toProtocol expectedYield
          estimatedGas now)
    | none =>
      .ok (storeRequest s user fromProtocol toProtocol expectedYield
        estimatedGas now)

/-- executeRebalance of the engine (lines 188-249). The validRequest
modifier checks id range and the two terminal flags; the profitability
re-validation is a require, so its failure reverts the call; the inner
PortfolioManager call sits in a try/catch whose only clause is
`catch Error(string)`, hence an Error(string) revert cancels the
request while a Panic propagates and reverts the engine call itself. -/
def executeRebalance (s : EngineState) (requestId now : Nat) :
    Except SolError EngineState :=
  if s.requestCounter ≤ requestId then .error (.err "Invalid request ID")
  else if (s.rebalanceRequests requestId).executed = true then
    .error (.err "Request already executed")
  else if (s.rebalanceRequests requestId).cancelled = true then
    .error (.err "Request cancelled")
  else if (s.portfolios (s.rebalanceRequests requestId).user).autoRebalanceEnabled
      = false then
    .error (.err "Auto-rebalance disabled")
  else if isProfitableRebalance (s.rebalanceRequests requestId).user
      (s.portfolios (s.rebalanceRequests requestId).user).currentYield
      (s.rebalanceRequests requestId).expectedYield
      (s.rebalanceRequests requestId).estimatedGas
      (s.portfolios (s.rebalanceRequests requestId).user).totalValue
      = false then
    .error (.err "No longer profitable")
  else
    match PortfolioManager.executeRebalance
        (s.portfolios (s.rebalanceRequests requestId).user)
        (s.rebalanceRequests requestId).fromProtocol
        (s.rebalanceRequests requestId).toProtocol
        (s.rebalanceRequests requestId).expectedYield
        (s.rebalanceRequests requestId).estimatedGas now with
    | .ok p2 =>
      .ok { s with
        portfolios := fun u =>
          if u = (s.rebalanceRequests requestId).user then p2
          else s.portfolios u,
        rebalanceRequests := fun r =>
          if r = requestId then
            { s.rebalanceRequests requestId with executed := true }
          else s.rebalanceRequests r,
        metrics := updateMetrics s.metrics (s.rebalanceRequests requestId)
          (s.portfolios (s.rebalanceRequests requestId).user).currentYield }
    | .error (.err _) =>
      .ok { s with
        rebalanceRequests := fun r =>
          if r = requestId then
            { s.rebalanceRequests requestId with cancelled := true }
          else s.rebalanceRequests r }
    | .error (.panic c) => .error (.panic c)

/-- Minimum-liquidity floor passed to the oracle by batchOptimization
(line 302): 50 million dollars scaled by 1e18. -/
def MIN_TVL_FLOOR : Nat := 50000000 * 10 ^ 18

/-- Loop body of batchOptimization (lines 277-332). The try/catch
around `this.requestRebalance` has a catch-all clause, so any revert
there skips the user; `this.executeRebalance` is called inside the
success block of the try, outside its protection, so a revert there
reverts the whole batch; the counter and profit accumulator are bumped
whenever that call returns, even when it cancelled the request. -/
def batchLoop (s : EngineState) (users : List Nat)
    (now optimizedCount totalProfit : Nat) :
    Except SolError (EngineState × Nat × Nat) :=
  match users with
  | [] => .ok (s, optimizedCount, totalProfit)
  | user :: rest =>
    if (s.portfolios user).autoRebalanceEnabled = false ∨
        (s.portfolios user).totalValue = 0 then
      batchLoop s rest now optimizedCount totalProfit
    else
      match YieldOracle.getBestYieldForRisk s.oracle
          (mapRiskProfile (s.portfolios user).riskProfile) MIN_TVL_FLOOR now with
      | .error e => .error e
      | .ok (bestProtocol, bestYield, bestRiskScore) =>
        if bestProtocol ≠ "" ∧ (s.portfolios user).currentYield < bestYield ∧
            bestRiskScore ≤ mapRiskProfile (s.portfolios user).riskProfile then
          if isProfitableRebalance user (s.portfolios user).currentYield
              bestYield
              (estimateGasCost (s.portfolios user).currentProtocol bestProtocol)
              (s.portfolios user).totalValue then
            match requestRebalance s user (s.portfolios user).currentProtocol
                bestProtocol bestYield
                (estimateGasCost (s.portfolios user).currentProtocol
                  bestProtocol) now with
            | .error _ => batchLoop s rest now optimizedCount totalProfit
            | .ok (s1, requestId) =>
              match executeRebalance s1 requestId now with
              | .error e => .error e
              | .ok s2 =>
                batchLoop s2 rest now (optimizedCount + 1)
                  (totalProfit +
                    calculateProfit (s.portfolios user).currentYield bestYield
                      (s.portfolios user).totalValue
                      (estimateGasCost (s.portfolios user).currentProtocol
                        bestProtocol))
          else batchLoop s rest now optimizedCount totalProfit
        else batchLoop s rest now optimizedCount totalProfit

/-- batchOptimization (lines 269-336). The returned pair is the payload
of the single OptimizationCompleted event emitted at the end. -/
def batchOptimization (s : EngineState) (users : List Nat) (now : Nat) :
    Except SolError (EngineState × Nat × Nat) :=
  match batchLoop s users now 0 0 with
  | .error e => .error e
  | .ok (s1, optimizedCount, totalProfit) =>
    .ok ({ s1 with
      metrics := { s1.metrics with lastOptimizationRun := now } },
      optimizedCount, totalProfit)

end RebalancingEngine

/-- The portfolio of the specifications worked scenario: value 10000,
yield 320 bp, on Aave, balanced, auto-rebalance on. -/
def examplePortfolio : Portfolio := ⟨10000, 320, "Aave", 1, true, 0, 0⟩

/-- One public PortfolioManager operation, for reasoning about
sequences of calls on a single owners portfolio. -/
inductive POp where
  | create : Nat → Nat → Nat → POp
  | dep : Nat → POp
  | wd : Nat → POp
  | reb : String → String → Nat → Nat → Nat → POp

/-- Dispatch of one operation. -/
def applyOp (p : Portfolio) : POp → Except SolError Portfolio
  | .create v rp now => PortfolioManager.createPortfolio p v rp now
  | .dep v => PortfolioManager.depositFunds p v
  | .wd a => PortfolioManager.withdrawFunds p a
  | .reb f t ey g now => PortfolioManager.executeRebalance p f t ey g now

/-- Run a sequence of operations, stopping at the first failure. -/
def runOps (p : Portfolio) : List POp → Except SolError Portfolio
  | [] => .ok p
  | op :: rest =>
    match applyOp p op with
    | .error e => .error e
    | .ok q => runOps q rest

/-- Funds entering the portfolio in one operation (createPortfolio
carries its initial deposit). -/
def inflow : POp → Nat
  | .create v _ _ => v
  | .dep v => v
  | _ => 0

/-- Funds leaving the portfolio in one operation. -/
def outflow : POp → Nat
  | .wd a => a
  | _ => 0

/-- Operation sequence used as the C4 witness: create with the minimum
deposit, deposit 5000, withdraw 3000, then a zero-cost rebalance. -/
def c4Ops : List POp :=
  [.create (10 ^ 16) 1 0, .dep 5000, .wd 3000,
   .reb "Aave" "Compound" 780 0 5]

/-- The specifications market snapshot as oracle storage: four venues,
all updated at time 1000 with the scenario figures. -/
def marketOracle : OracleState :=
  ⟨fun p =>
      if p = "Aave" then ⟨"Aave", 320, 2500000000 * 10 ^ 18, 2, 1000, true⟩
      else if p = "Compound" then
        ⟨"Compound", 780, 1800000000 * 10 ^ 18, 2, 1000, true⟩
      else if p = "Curve" then
        ⟨"Curve", 540, 850000000 * 10 ^ 18, 3, 1000, true⟩
      else if p = "Uniswap" then
        ⟨"Uniswap", 420, 420000000 * 10 ^ 18, 4, 1000, true⟩
      else ⟨"", 0, 0, 0, 0, false⟩,
    fun _ => [],
    ["Aave", "Compound", "Curve", "Uniswap"]⟩

/-- Oracle storage holding a single venue that passes every filter of
the selection scan but carries apy 0. -/
def c7ZeroOracle : OracleState :=
  ⟨fun p =>
      if p = "Aave" then ⟨"Aave", 0, 10 ^ 6 * 10 ^ 18, 2, 1000, true⟩
      else ⟨"", 0, 0, 0, 0, false⟩,
    fun _ => [], ["Aave"]⟩

/-- Engine state with a single Pending request (id 0) for user 1 whose
expected yield of 321 bp is no longer profitable against the current
portfolio (improvement 1 bp on value 10000 versus required margin 11 on
gas 10). -/
def c2State : EngineState :=
  { portfolios := fun u =>
      if u = 1 then ⟨10000, 320, "Aave", 1, true, 0, 0⟩ else Portfolio.empty,
    oracle := ⟨fun _ => ⟨"", 0, 0, 0, 0, false⟩, fun _ => [], []⟩,
    rebalanceRequests := fun r =>
      if r = 0 then ⟨1, "Aave", "Compound", 10000, 321, 10, 0, false, false⟩
      else RebalanceRequest.empty,
    userRebalanceHistory := fun u => if u = 1 then [0] else [],
    requestCounter := 1,
    metrics := ⟨0, 0, 0, 0, 0⟩ }

/-- Engine state identical to c2State except that request 0 expects
340 bp: profitable for the engine gate (improvement 20 bp, margin 1 on
gas 1), but rejected by the ledger check (improvement not above 50 bp),
which cancels the request through the catch clause. -/
def c2ExecState : EngineState :=
  { c2State with
    rebalanceRequests := fun r =>
      if r = 0 then ⟨1, "Aave", "Compound", 10000, 340, 1, 0, false, false⟩
      else RebalanceRequest.empty }

/-- Engine state for the three-user batch scenario over the market
snapshot: users 1 and 3 hold 1 ether (profitable to move to Compound),
user 2 holds 0.001 ether, too little to clear the profitability margin
against the estimated gas cost. -/
def c5State : EngineState :=
  { portfolios := fun u =>
      if u = 1 then ⟨10 ^ 18, 320, "Aave", 1, true, 0, 0⟩
      else if u = 2 then ⟨10 ^ 15, 320, "Aave", 1, true, 0, 0⟩
      else if u = 3 then ⟨10 ^ 18, 320, "Aave", 1, true, 0, 0⟩
      else Portfolio.empty,
    oracle := marketOracle,
    rebalanceRequests := fun _ => RebalanceRequest.empty,
    userRebalanceHistory := fun _ => [],
    requestCounter := 0,
    metrics := ⟨0, 0, 0, 0, 0⟩ }

/-- Engine state for the C8 witness: user 1 has a fresh portfolio and
no request history. -/
def c8State : EngineState :=
  { portfolios := fun u =>
      if u = 1 then ⟨10000, 320, "Aave", 1, true, 0, 0⟩ else Portfolio.empty,
    oracle := ⟨fun _ => ⟨"", 0, 0, 0, 0, false⟩, fun _ => [], []⟩,
    rebalanceRequests := fun _ => RebalanceRequest.empty,
    userRebalanceHistory := fun _ => [],
    requestCounter := 0,
    metrics := ⟨0, 0, 0, 0, 0⟩ }

/-- Oracle storage with one active venue and empty history, the start
state for iterating updateYield. -/
def c9Base : OracleState :=
  ⟨fun p =>
      if p = "Aave" then ⟨"Aave", 0, 0, 2, 0, true⟩
      else ⟨"", 0, 0, 0, 0, false⟩,
    fun _ => [], ["Aave"]⟩

/-- One successful updateYield call on the Aave record (the arguments
pass every validation), keeping the state on failure. -/
def c9Step (s : OracleState) : OracleState :=
  match YieldOracle.updateYield s "Aave" 100 YieldOracle.MIN_TVL_THRESHOLD
      2 0 with
  | .ok s2 => s2
  | .error _ => s

/-- n successful updateYield calls starting from c9Base. -/
def c9Iter : Nat → OracleState
  | 0 => c9Base
  | n + 1 => c9Step (c9Iter n)

/-- C1: the ledger mutation does not implement the claimed profit
update. PortfolioManager.executeRebalance overwrites currentYield before
computing yieldDifference, so the computed difference is always 0: with
cost 3 the SafeMath subtraction 0 - 3 raises Panic(0x11) and the whole
call reverts (first conjunct), and with cost 0 the call succeeds but
adds 0 to cumulativeProfit instead of the claimed
totalValue * (newYield - oldYield) / 10000 - cost = 460 (second
conjunct). -/
theorem C1_profit_accounting_bug :
    PortfolioManager.executeRebalance examplePortfolio "Aave" "Compound"
      780 3 1000 = .error (.panic 17) ∧
    PortfolioManager.executeRebalance examplePortfolio "Aave" "Compound"
      780 0 1000 = .ok ⟨10000, 780, "Compound", 1, true, 1000, 0⟩ :=
  ⟨rfl, rfl⟩

/-- C3: checkRebalanceProfitability is a pure function of the portfolio
and its two arguments (it is modelled as such because the source is a
view function with no writes), and it returns true exactly when
newYield exceeds currentYield + MIN_YIELD_IMPROVEMENT and the annual
profit covers cost * 115 / 100 in integer arithmetic; on the worked
portfolio it accepts cost 3 and rejects cost 500. -/
theorem C3_checkRebalanceProfitability_spec :
    (∀ (p : Portfolio) (newYield gasCost : Nat),
      PortfolioManager.checkRebalanceProfitability p newYield gasCost = true ↔
        (p.currentYield + PortfolioManager.MIN_YIELD_IMPROVEMENT < newYield ∧
          gasCost * 115 / 100 ≤
            p.totalValue * (newYield - p.currentYield) / 10000)) ∧
    PortfolioManager.checkRebalanceProfitability examplePortfolio 780 3
      = true ∧
    PortfolioManager.checkRebalanceProfitability examplePortfolio 780 500
      = false := by
  refine ⟨?_, rfl, rfl⟩
  intro p newYield gasCost
  unfold PortfolioManager.checkRebalanceProfitability
  split
  · rename_i h
    constructor
    · intro hf
      exact absurd hf (by simp)
    · rintro ⟨hlt, -⟩
      exact absurd hlt (by omega)
  · rename_i h
    rw [Nat.not_le] at h
    simp [h]

/-- C6: the risk-profile mapping is off by one against the RiskProfile
enum. The enum values are CONSERVATIVE = 0, BALANCED = 1,
AGGRESSIVE = 2, while mapRiskProfile tests against 1, 2 and 3: so
Conservative falls through to the default 5 (not 3), Balanced maps to 3
(not 5), Aggressive maps to 5 (not 8), and the 8 branch is unreachable
from the enum. The tvl floor used by the batch path is the fixed
50 million dollar constant. -/
theorem C6_mapRiskProfile_eval :
    RebalancingEngine.mapRiskProfile PortfolioManager.CONSERVATIVE = 5 ∧
    RebalancingEngine.mapRiskProfile PortfolioManager.BALANCED = 3 ∧
    RebalancingEngine.mapRiskProfile PortfolioManager.AGGRESSIVE = 5 ∧
    RebalancingEngine.mapRiskProfile 7 = 5 ∧
    RebalancingEngine.MIN_TVL_FLOOR = 50000000 * 10 ^ 18 :=
  ⟨rfl, rfl, rfl, rfl, rfl⟩

/-- C10: a portfolio drained to totalValue 0 by a withdrawal is treated
as nonexistent: depositFunds, updateRiskProfile (on a well-formed
profile argument) and toggleAutoRebalance reject it with the
portfolio-does-not-exist error, and createPortfolio accepts the owner
again, resetting every field to its initial value. -/
theorem C10_zero_portfolio_nonexistent :
    (∀ (q : Portfolio), 0 < q.totalValue →
      PortfolioManager.withdrawFunds q q.totalValue =
        .ok { q with totalValue := 0 }) ∧
    (∀ (p : Portfolio), p.totalValue = 0 → ∀ (v : Nat),
      PortfolioManager.depositFunds p v =
        .error (.err "Portfolio does not exist")) ∧
    (∀ (p : Portfolio), p.totalValue = 0 → ∀ (rp : Nat), rp ≤ 2 →
      PortfolioManager.updateRiskProfile p rp =
        .error (.err "Portfolio does not exist")) ∧
    (∀ (p : Portfolio), p.totalValue = 0 →
      PortfolioManager.toggleAutoRebalance p =
        .error (.err "Portfolio does not exist")) ∧
    (∀ (p : Portfolio), p.totalValue = 0 →
      ∀ (v rp now : Nat), PortfolioManager.MIN_DEPOSIT ≤ v → rp ≤ 2 →
      PortfolioManager.createPortfolio p v rp now =
        .ok ⟨v, 320, "Aave", rp, true, now, 0⟩) := by
  refine ⟨?_, ?_, ?_, ?_, ?_⟩
  · intro q hq
    have h1 : ¬ q.totalValue < q.totalValue := by omega
    have h2 : q.totalValue ≠ 0 := by omega
    simp [PortfolioManager.withdrawFunds, h1, h2]
  · intro p hp v
    simp [PortfolioManager.depositFunds, hp]
  · intro p hp rp hrp
    have h1 : ¬ 2 < rp := by omega
    simp [PortfolioManager.updateRiskProfile, h1, hp]
  · intro p hp
    simp [PortfolioManager.toggleAutoRebalance, hp]
  · intro p hp v rp now hv hrp
    have h1 : ¬ v < PortfolioManager.MIN_DEPOSIT := by omega
    have h2 : ¬ 2 < rp := by omega
    simp [PortfolioManager.createPortfolio, h1, h2, hp]

/-- Closed instantiation of every part of the C10 theorem. -/
theorem C10_zero_portfolio_nonexistent_witness :
    PortfolioManager.withdrawFunds ⟨500, 320, "Aave", 1, true, 0, 0⟩ 500 =
      .ok ⟨0, 320, "Aave", 1, true, 0, 0⟩ ∧
    PortfolioManager.depositFunds ⟨0, 320, "Aave", 1, true, 0, 0⟩ 100 =
      .error (.err "Portfolio does not exist") ∧
    PortfolioManager.updateRiskProfile ⟨0, 320, "Aave", 1, true, 0, 0⟩ 2 =
      .error (.err "Portfolio does not exist") ∧
    PortfolioManager.toggleAutoRebalance ⟨0, 320, "Aave", 1, true, 0, 0⟩ =
      .error (.err "Portfolio does not exist") ∧
    PortfolioManager.createPortfolio ⟨0, 320, "Aave", 1, true, 0, 0⟩
      (10 ^ 16) 2 77 = .ok ⟨10 ^ 16, 320, "Aave", 2, true, 77, 0⟩ :=
  ⟨C10_zero_portfolio_nonexistent.1 ⟨500, 320, "Aave", 1, true, 0, 0⟩
      (by decide),
   C10_zero_portfolio_nonexistent.2.1 ⟨0, 320, "Aave", 1, true, 0, 0⟩ rfl 100,
   C10_zero_portfolio_nonexistent.2.2.1 ⟨0, 320, "Aave", 1, true, 0, 0⟩ rfl 2
      (by decide),
   C10_zero_portfolio_nonexistent.2.2.2.1 ⟨0, 320, "Aave", 1, true, 0, 0⟩ rfl,
   C10_zero_portfolio_nonexistent.2.2.2.2 ⟨0, 320, "Aave", 1, true, 0, 0⟩ rfl
      (10 ^ 16) 2 77 (by decide) (by decide)⟩

/-- C2 counterexample: when the profitability re-validation fails at
execution time, RebalancingEngine.executeRebalance does not transition
the Pending request to Cancelled and return; the require makes the call
revert with "No longer profitable", and since a reverted call changes
no state the request is still Pending (both flags false) afterwards. -/
theorem C2_stale_request_not_cancelled :
    RebalancingEngine.executeRebalance c2State 0 1000 =
      .error (.err "No longer profitable") ∧
    (c2State.rebalanceRequests 0).executed = false ∧
    (c2State.rebalanceRequests 0).cancelled = false :=
  ⟨rfl, rfl, rfl⟩

/-- C2 amended: a failed profitability re-validation on a Pending
request (with auto-rebalance still on) makes executeRebalance revert
with "No longer profitable", leaving the request Pending; and whenever
executeRebalance returns rather than reverts, the request is no longer
Pending: it is Executed when the ledger mutation succeeded and
Cancelled when the ledger mutation failed with an Error(string). -/
theorem C2_executed_request_terminal :
    (∀ (s : EngineState) (requestId now : Nat),
      requestId < s.requestCounter →
      (s.rebalanceRequests requestId).executed = false →
      (s.rebalanceRequests requestId).cancelled = false →
      (s.portfolios (s.rebalanceRequests requestId).user).autoRebalanceEnabled
        = true →
      RebalancingEngine.isProfitableRebalance
        (s.rebalanceRequests requestId).user
        (s.portfolios (s.rebalanceRequests requestId).user).currentYield
        (s.rebalanceRequests requestId).expectedYield
        (s.rebalanceRequests requestId).estimatedGas
        (s.portfolios (s.rebalanceRequests requestId).user).totalValue
        = false →
      RebalancingEngine.executeRebalance s requestId now =
        .error (.err "No longer profitable")) ∧
    (∀ (s : EngineState) (requestId now : Nat) (s2 : EngineState),
      RebalancingEngine.executeRebalance s requestId now = .ok s2 →
      (s2.rebalanceRequests requestId).executed = true ∨
      (s2.rebalanceRequests requestId).cancelled = true) := by
  constructor
  · intro s requestId now h1 h2 h3 h4 h5
    simp [RebalancingEngine.executeRebalance, Nat.not_le.mpr h1, h2, h3, h4, h5]
  · intro s requestId now s2 hok
    unfold RebalancingEngine.executeRebalance at hok
    repeat' split at hok
    all_goals first
      | exact Except.noConfusion hok
      | (injection hok with h
         subst h
         simp)

/-- Closed instantiation of both parts of the C2 theorem. -/
theorem C2_executed_request_terminal_witness :
    RebalancingEngine.executeRebalance c2State 0 1000 =
      .error (.err "No longer profitable") ∧
    ∃ s2, RebalancingEngine.executeRebalance c2ExecState 0 1000 = .ok s2 ∧
      ((s2.rebalanceRequests 0).executed = true ∨
       (s2.rebalanceRequests 0).cancelled = true) :=
  ⟨C2_executed_request_terminal.1 c2State 0 1000 (by decide) rfl rfl rfl rfl,
   ⟨_, rfl, C2_executed_request_terminal.2 c2ExecState 0 1000 _ rfl⟩⟩

/-- C5: per-user failure isolation does not hold. In the three-user
scenario, user 1 passes every admission check, so the loop synthesizes
and executes a request for it; the ledger mutation raises Panic(0x11)
(profit bug, nonzero gas estimate of 0.005 ether), the panic escapes
the catch clause that only protects this.requestRebalance, and the
whole batch reverts before users 2 and 3 are even considered — no
summary event is emitted at all (no count of 2). The second conjunct
records that user 2 is the one that fails the profitability margin. -/
theorem C5_batch_reverts_wholesale :
    RebalancingEngine.batchOptimization c5State [1, 2, 3] 1000 =
      .error (.panic 17) ∧
    RebalancingEngine.isProfitableRebalance 2 320 780
      (RebalancingEngine.estimateGasCost "Aave" "Compound") (10 ^ 15)
      = false :=
  ⟨rfl, rfl⟩

/-- C8: requestRebalance rejects whenever the time elapsed since the
last recorded request of the user is below REBALANCE_COOLDOWN — the
check reads only the timestamp of the most recent id in the user
history, never its executed or cancelled flags — and a user with no
recorded history is subject to no cooldown: when every other admission
check passes, the request is stored. -/
theorem C8_cooldown_spec :
    (∀ (s : EngineState) (user : Nat) (fromProtocol toProtocol : String)
        (expectedYield estimatedGas now lastRequestId : Nat),
      (s.userRebalanceHistory user).getLast? = some lastRequestId →
      now - (s.rebalanceRequests lastRequestId).timestamp <
        RebalancingEngine.REBALANCE_COOLDOWN →
      ∃ e, RebalancingEngine.requestRebalance s user fromProtocol toProtocol
        expectedYield estimatedGas now = .error e) ∧
    (∀ (s : EngineState) (user : Nat) (fromProtocol toProtocol : String)
        (expectedYield estimatedGas now : Nat),
      s.userRebalanceHistory user = [] →
      user ≠ 0 →
      estimatedGas ≤ RebalancingEngine.MAX_GAS_COST →
      fromProtocol ≠ "" →
      toProtocol ≠ "" →
      (s.portfolios user).autoRebalanceEnabled = true →
      (s.portfolios user).totalValue ≠ 0 →
      (s.portfolios user).currentProtocol = fromProtocol →
      RebalancingEngine.isProfitableRebalance user
        (s.portfolios user).currentYield expectedYield estimatedGas
        (s.portfolios user).totalValue = true →
      RebalancingEngine.requestRebalance s user fromProtocol toProtocol
        expectedYield estimatedGas now =
        .ok (RebalancingEngine.storeRequest s user fromProtocol toProtocol
          expectedYield estimatedGas now)) := by
  constructor
  · intro s user fromProtocol toProtocol expectedYield estimatedGas now
      lastRequestId hlast hcool
    rcases hres : RebalancingEngine.requestRebalance s user fromProtocol
        toProtocol expectedYield estimatedGas now with e | x
    · exact ⟨e, rfl⟩
    · exfalso
      unfold RebalancingEngine.requestRebalance at hres
      repeat' split at hres
      all_goals first
        | exact Except.noConfusion hres
        | simp_all
  · intro s user fromProtocol toProtocol expectedYield estimatedGas now
      hnil h0 hgas hfp htp hauto htv hproto hprof
    have hg : ¬ RebalancingEngine.MAX_GAS_COST < estimatedGas := by omega
    simp [RebalancingEngine.requestRebalance, h0, hg, hfp, htp, hauto, htv,
      hproto, hprof, hnil]

/-- Closed instantiation of both parts of the C8 theorem: user 1 of
c2State requested at time 0 and is rejected at time 1000 although that
request is still Pending, while user 1 of c8State with empty history is
admitted. -/
theorem C8_cooldown_spec_witness :
    (∃ e, RebalancingEngine.requestRebalance c2State 1 "Aave" "Compound"
      780 3 1000 = .error e) ∧
    RebalancingEngine.requestRebalance c8State 1 "Aave" "Compound"
      780 3 1000 =
      .ok (RebalancingEngine.storeRequest c8State 1 "Aave" "Compound"
        780 3 1000) :=
  ⟨C8_cooldown_spec.1 c2State 1 "Aave" "Compound" 780 3 1000 0 rfl
      (by decide),
   C8_cooldown_spec.2 c8State 1 "Aave" "Compound" 780 3 1000 rfl
      (by decide) (by decide) (by decide) (by decide) rfl (by decide) rfl
      rfl⟩

/-- One successful PortfolioManager operation moves totalValue by
exactly its inflow minus its outflow. -/
theorem applyOp_totalValue (p q : Portfolio) (op : POp)
    (h : applyOp p op = .ok q) :
    (q.totalValue : ℤ) = (p.totalValue : ℤ) + inflow op - outflow op := by
  cases op with
  | create v rp now =>
    simp only [applyOp] at h
    unfold PortfolioManager.createPortfolio at h
    repeat' split at h
    all_goals first
      | exact Except.noConfusion h
      | (injection h with h2
         subst h2
         simp_all [inflow, outflow]
         try omega)
  | dep v =>
    simp only [applyOp] at h
    unfold PortfolioManager.depositFunds at h
    repeat' split at h
    all_goals first
      | exact Except.noConfusion h
      | (injection h with h2
         subst h2
         simp_all [inflow, outflow]
         try omega)
  | wd a =>
    simp only [applyOp] at h
    unfold PortfolioManager.withdrawFunds at h
    repeat' split at h
    all_goals first
      | exact Except.noConfusion h
      | (injection h with h2
         subst h2
         simp_all [inflow, outflow]
         try omega)
  | reb f t ey g now =>
    simp only [applyOp] at h
    unfold PortfolioManager.executeRebalance csub at h
    simp only [] at h
    repeat' split at h
    all_goals first
      | exact Except.noConfusion h
      | (injection h with h2
         subst h2
         simp_all [inflow, outflow]
         try omega)

/-- Accounting identity for a successful run of operations. -/
theorem runOps_totalValue (ops : List POp) :
    ∀ (p q : Portfolio), runOps p ops = .ok q →
    (q.totalValue : ℤ) = (p.totalValue : ℤ) +
      ((ops.map inflow).sum : ℤ) - ((ops.map outflow).sum : ℤ) := by
  induction ops with
  | nil =>
    intro p q h
    injection h with h2
    subst h2
    simp
  | cons op rest ih =>
    intro p q h
    unfold runOps at h
    rcases happ : applyOp p op with e | r
    · rw [happ] at h
      exact Except.noConfusion h
    · rw [happ] at h
      have h1 := applyOp_totalValue p r op happ
      have h2 := ih r q h
      simp only [List.map_cons, List.sum_cons]
      push_cast at h2 ⊢
      omega

/-- C4: starting from no portfolio, after any successful sequence of
create, deposit, withdraw and rebalance calls, totalValue equals the
sum of all money put in (the creating deposit and every depositFunds
amount) minus the sum of all withdrawals; it is never negative; a
successful rebalance never changes it; and withdrawFunds rejects any
amount exceeding the balance. -/
theorem C4_totalValue_accounting :
    (∀ (ops : List POp) (q : Portfolio),
      runOps Portfolio.empty ops = .ok q →
      (q.totalValue : ℤ) =
        ((ops.map inflow).sum : ℤ) - ((ops.map outflow).sum : ℤ) ∧
      0 ≤ (q.totalValue : ℤ)) ∧
    (∀ (p : Portfolio) (f t : String) (ey g now : Nat) (q : Portfolio),
      PortfolioManager.executeRebalance p f t ey g now = .ok q →
      q.totalValue = p.totalValue) ∧
    (∀ (p : Portfolio) (amount : Nat), p.totalValue < amount →
      PortfolioManager.withdrawFunds p amount =
        .error (.err "Insufficient balance")) := by
  refine ⟨?_, ?_, ?_⟩
  · intro ops q h
    have h1 := runOps_totalValue ops Portfolio.empty q h
    constructor
    · simpa [Portfolio.empty] using h1
    · exact Int.natCast_nonneg _
  · intro p f t ey g now q h
    have h1 := applyOp_totalValue p q (.reb f t ey g now) h
    simp only [inflow, outflow] at h1
    omega
  · intro p amount h
    simp [PortfolioManager.withdrawFunds, h]

/-- Closed instantiation of every part of the C4 theorem. -/
theorem C4_totalValue_accounting_witness :
    (∃ q, runOps Portfolio.empty c4Ops = .ok q ∧
      (q.totalValue : ℤ) =
        ((c4Ops.map inflow).sum : ℤ) - ((c4Ops.map outflow).sum : ℤ) ∧
      0 ≤ (q.totalValue : ℤ)) ∧
    (∃ q, PortfolioManager.executeRebalance examplePortfolio "Aave"
      "Compound" 780 0 9 = .ok q ∧
      q.totalValue = examplePortfolio.totalValue) ∧
    PortfolioManager.withdrawFunds examplePortfolio 20000 =
      .error (.err "Insufficient balance") :=
  ⟨⟨_, rfl, C4_totalValue_accounting.1 c4Ops _ rfl⟩,
   ⟨_, rfl, C4_totalValue_accounting.2.1 examplePortfolio "Aave" "Compound"
      780 0 9 _ rfl⟩,
   C4_totalValue_accounting.2.2 examplePortfolio 20000 (by decide)⟩

/-- C9 amended: a successful updateYield appends the previous record to
the venue history (and touches no other history); nothing is ever
evicted, so the length grows by exactly one per successful update. -/
theorem C9_updateYield_appends :
    ∀ (s : OracleState) (protocol : String) (apy tvl riskScore now : Nat)
      (s2 : OracleState),
      YieldOracle.updateYield s protocol apy tvl riskScore now = .ok s2 →
      s2.yieldHistory protocol =
        s.yieldHistory protocol ++
          [⟨(s.protocolYields protocol).apy,
            (s.protocolYields protocol).timestamp⟩] ∧
      (s2.yieldHistory protocol).length =
        (s.yieldHistory protocol).length + 1 ∧
      ∀ (q : String), q ≠ protocol → s2.yieldHistory q = s.yieldHistory q := by
  intro s protocol apy tvl riskScore now s2 h
  unfold YieldOracle.updateYield at h
  repeat' split at h
  all_goals first
    | exact Except.noConfusion h
    | (injection h with h2
       subst h2
       refine ⟨by simp, by simp, ?_⟩
       intro q hq
       simp [hq])

/-- Closed instantiation of the C9 theorem on c9Base. -/
theorem C9_updateYield_appends_witness :
    ∃ s2, YieldOracle.updateYield c9Base "Aave" 100
        YieldOracle.MIN_TVL_THRESHOLD 2 50 = .ok s2 ∧
      (s2.yieldHistory "Aave" =
        c9Base.yieldHistory "Aave" ++
          [⟨(c9Base.protocolYields "Aave").apy,
            (c9Base.protocolYields "Aave").timestamp⟩] ∧
       (s2.yieldHistory "Aave").length =
         (c9Base.yieldHistory "Aave").length + 1 ∧
       ∀ (q : String), q ≠ "Aave" → s2.yieldHistory q = c9Base.yieldHistory q) :=
  ⟨_, rfl, C9_updateYield_appends c9Base "Aave" 100
    YieldOracle.MIN_TVL_THRESHOLD 2 50 _ rfl⟩

/-- One iteration of c9Step on a state whose Aave record is active
reduces to the explicit storage update. -/
theorem c9Step_spec (s : OracleState)
    (hact : (s.protocolYields "Aave").active = true) :
    c9Step s = { s with
      yieldHistory := fun q =>
        if q = "Aave" then
          s.yieldHistory q ++
            [⟨(s.protocolYields "Aave").apy,
              (s.protocolYields "Aave").timestamp⟩]
        else s.yieldHistory q,
      protocolYields := fun q =>
        if q = "Aave" then
          { s.protocolYields "Aave" with
            apy := 100,
            tvl := YieldOracle.MIN_TVL_THRESHOLD,
            riskScore := 2,
            timestamp := 0 }
        else s.protocolYields q } := by
  unfold c9Step YieldOracle.updateYield
  rw [hact]
  norm_num

/-- After n iterations the Aave record is still active and the history
holds exactly n entries. -/
theorem c9Iter_length (n : Nat) :
    ((c9Iter n).protocolYields "Aave").active = true ∧
    ((c9Iter n).yieldHistory "Aave").length = n := by
  induction n with
  | zero => exact ⟨rfl, rfl⟩
  | succ n ih =>
    obtain ⟨hact, hlen⟩ := ih
    unfold c9Iter
    rw [c9Step_spec (c9Iter n) hact]
    constructor
    · simp [hact]
    · simp [hlen]

/-- C9 counterexample: the history is not bounded by any fixed bound —
iterating successful updateYield calls makes it exceed every candidate
bound, so no most-recent-first ring with eviction on overflow exists. -/
theorem C9_history_unbounded :
    ¬ ∃ (bound : Nat), ∀ (n : Nat),
      ((c9Iter n).yieldHistory "Aave").length ≤ bound := by
  rintro ⟨bound, hb⟩
  have h := hb (bound + 1)
  rw [(c9Iter_length (bound + 1)).2] at h
  omega

/-- A scan step either keeps the accumulator (and the record does not
beat it) or selects the record (and it does). -/
theorem bestStep_cases (s : OracleState) (rp minTvl now : Nat)
    (acc : String × Nat × Nat) (p : String) :
    (YieldOracle.bestStep s rp minTvl now acc p = acc ∧
      ¬(YieldOracle.eligible s rp minTvl now p = true ∧
        acc.2.1 < (s.protocolYields p).apy)) ∨
    (YieldOracle.bestStep s rp minTvl now acc p =
        (p, (s.protocolYields p).apy, (s.protocolYields p).riskScore) ∧
      YieldOracle.eligible s rp minTvl now p = true ∧
      acc.2.1 < (s.protocolYields p).apy) := by
  unfold YieldOracle.bestStep
  split
  · rename_i h
    rw [Bool.and_eq_true, decide_eq_true_eq] at h
    exact Or.inr ⟨rfl, h.1, h.2⟩
  · rename_i h
    rw [Bool.and_eq_true, decide_eq_true_eq] at h
    exact Or.inl ⟨rfl, h⟩

/-- The running maximum of the scan only grows, and it dominates the
apy of every eligible record it has passed. -/
theorem foldl_ub (s : OracleState) (rp minTvl now : Nat) :
    ∀ (l : List String) (acc : String × Nat × Nat),
      acc.2.1 ≤ (l.foldl (YieldOracle.bestStep s rp minTvl now) acc).2.1 ∧
      ∀ p ∈ l, YieldOracle.eligible s rp minTvl now p = true →
        (s.protocolYields p).apy ≤
          (l.foldl (YieldOracle.bestStep s rp minTvl now) acc).2.1 := by
  intro l
  induction l with
  | nil =>
    intro acc
    exact ⟨le_refl _, by simp⟩
  | cons a rest ih =>
    intro acc
    rw [List.foldl_cons]
    rcases bestStep_cases s rp minTvl now acc a with ⟨heq, hneg⟩ |
        ⟨heq, hel, hlt⟩
    · rw [heq]
      refine ⟨(ih acc).1, ?_⟩
      intro q hq helq
      rcases List.mem_cons.mp hq with hq1 | hq2
      · subst hq1
        have h1 : ¬ acc.2.1 < (s.protocolYields q).apy :=
          fun hc => hneg ⟨helq, hc⟩
        exact le_trans (Nat.not_lt.mp h1) (ih acc).1
      · exact (ih acc).2 q hq2 helq
    · rw [heq]
      constructor
      · exact le_trans (le_of_lt hlt)
          (ih (a, (s.protocolYields a).apy,
            (s.protocolYields a).riskScore)).1
      · intro q hq helq
        rcases List.mem_cons.mp hq with hq1 | hq2
        · subst hq1
          exact (ih (q, (s.protocolYields q).apy,
            (s.protocolYields q).riskScore)).1
        · exact (ih (a, (s.protocolYields a).apy,
            (s.protocolYields a).riskScore)).2 q hq2 helq

/-- Either the scan never selects anything, or its result is the first
record in the list to reach the final maximum: that record is eligible,
the result is built from it, and every eligible record before it has a
strictly smaller apy. -/
theorem foldl_maxfirst (s : OracleState) (rp minTvl now : Nat) :
    ∀ (l : List String) (acc : String × Nat × Nat),
      l.foldl (YieldOracle.bestStep s rp minTvl now) acc = acc ∨
      (acc.2.1 <
          (l.foldl (YieldOracle.bestStep s rp minTvl now) acc).2.1 ∧
        ∃ l1 p l2, l = l1 ++ p :: l2 ∧
          YieldOracle.eligible s rp minTvl now p = true ∧
          l.foldl (YieldOracle.bestStep s rp minTvl now) acc =
            (p, (s.protocolYields p).apy,
              (s.protocolYields p).riskScore) ∧
          ∀ q ∈ l1, YieldOracle.eligible s rp minTvl now q = true →
            (s.protocolYields q).apy <
              (l.foldl (YieldOracle.bestStep s rp minTvl now) acc).2.1) := by
  intro l
  induction l with
  | nil =>
    intro acc
    exact Or.inl rfl
  | cons a rest ih =>
    intro acc
    rw [List.foldl_cons]
    rcases bestStep_cases s rp minTvl now acc a with ⟨heq, hneg⟩ |
        ⟨heq, hel, hlt⟩
    · rw [heq]
      rcases ih acc with h1 | ⟨h2, l1, p, l2, hsplit, help, hres, hbefore⟩
      · exact Or.inl h1
      · refine Or.inr ⟨h2, a :: l1, p, l2, by rw [hsplit, List.cons_append],
          help, hres, ?_⟩
        intro q hq helq
        rcases List.mem_cons.mp hq with hq1 | hq2
        · subst hq1
          have h3 : ¬ acc.2.1 < (s.protocolYields q).apy :=
            fun hc => hneg ⟨helq, hc⟩
          exact lt_of_le_of_lt (Nat.not_lt.mp h3) h2
        · exact hbefore q hq2 helq
    · rw [heq]
      rcases ih (a, (s.protocolYields a).apy,
          (s.protocolYields a).riskScore) with h1 |
          ⟨h2, l1, p, l2, hsplit, help, hres, hbefore⟩
      · rw [h1]
        exact Or.inr ⟨hlt, [], a, rest, rfl, hel, rfl, by simp⟩
      · refine Or.inr ⟨lt_trans hlt h2, a :: l1, p, l2,
          by rw [hsplit, List.cons_append], help, hres, ?_⟩
        intro q hq helq
        rcases List.mem_cons.mp hq with hq1 | hq2
        · subst hq1
          exact h2
        · exact hbefore q hq2 helq

/-- find? locates the marked element of a split list when everything
before it fails the predicate and it passes. -/
theorem find_of_split (pred : String → Bool) :
    ∀ (l1 : List String) (p : String) (l2 : List String),
      (∀ q ∈ l1, pred q = false) → pred p = true →
      List.find? pred (l1 ++ p :: l2) = some p := by
  intro l1
  induction l1 with
  | nil =>
    intro p l2 _ hp
    simp [List.find?_cons, hp]
  | cons a t ih =>
    intro p l2 hall hp
    have ha : pred a = false := hall a (List.mem_cons_self a t)
    rw [List.cons_append, List.find?_cons, ha]
    exact ih p l2 (fun q hq => hall q (List.mem_cons_of_mem a hq)) hp

/-- C7 counterexample: the single venue of c7ZeroOracle passes every
filter of the scan (active, risk 2 within ceiling 5, tvl above the
floor 0, fresh), so under the claim it is the highest-apy qualifying
record and should be returned; but its apy 0 never exceeds the zero
initial accumulator, and the scan returns the none triple instead. -/
theorem C7_zero_apy_not_selected :
    YieldOracle.getBestYieldForRisk c7ZeroOracle 5 0 1000 =
      .ok ("", 0, 0) ∧
    YieldOracle.eligible c7ZeroOracle 5 0 1000 "Aave" = true ∧
    "Aave" ∈ c7ZeroOracle.supportedProtocols :=
  ⟨rfl, rfl, by decide⟩

/-- C7 amended: for every valid query result, (1) the reported yield
dominates the apy of every record passing the activity, risk, tvl and
staleness filters; (2) when a venue is returned, it is a registered,
filtered venue whose apy and risk score are the reported ones, its apy
is positive, and it is the first-registered venue among the filtered
ones achieving that apy (ties break to registration order); (3) when
the none triple is returned, every filtered record has apy 0 — records
with apy 0 are never selected even though they pass the filters. -/
theorem C7_getBestYieldForRisk_spec :
    ∀ (s : OracleState) (maxRisk minTvl now : Nat) (bp : String)
      (ba br : Nat),
      "" ∉ s.supportedProtocols →
      YieldOracle.getBestYieldForRisk s maxRisk minTvl now =
        .ok (bp, ba, br) →
      ((∀ p ∈ s.supportedProtocols,
          YieldOracle.eligible s maxRisk minTvl now p = true →
          (s.protocolYields p).apy ≤ ba) ∧
        (bp ≠ "" →
          bp ∈ s.supportedProtocols ∧
          YieldOracle.eligible s maxRisk minTvl now bp = true ∧
          (s.protocolYields bp).apy = ba ∧
          (s.protocolYields bp).riskScore = br ∧
          0 < ba ∧
          s.supportedProtocols.find? (fun q =>
            YieldOracle.eligible s maxRisk minTvl now q &&
              ((s.protocolYields q).apy == ba)) = some bp) ∧
        (bp = "" →
          ∀ p ∈ s.supportedProtocols,
            YieldOracle.eligible s maxRisk minTvl now p = true →
            (s.protocolYields p).apy = 0)) := by
  intro s maxRisk minTvl now bp ba br hnil hres
  unfold YieldOracle.getBestYieldForRisk at hres
  split at hres
  · exact Except.noConfusion hres
  · injection hres with hfold
    have hub := foldl_ub s maxRisk minTvl now s.supportedProtocols ("", 0, 0)
    rw [hfold] at hub
    refine ⟨hub.2, ?_, ?_⟩
    · intro hbp
      rcases foldl_maxfirst s maxRisk minTvl now s.supportedProtocols
          ("", 0, 0) with h1 | ⟨h2, l1, p, l2, hsplit, help, hres2, hbefore⟩
      · rw [hfold] at h1
        obtain ⟨hb1, -, -⟩ : bp = "" ∧ ba = 0 ∧ br = 0 := by
          simpa [Prod.ext_iff] using h1
        exact absurd hb1 hbp
      · rw [hfold] at h2 hres2 hbefore
        obtain ⟨hb1, hb2, hb3⟩ : bp = p ∧ ba = (s.protocolYields p).apy ∧
            br = (s.protocolYields p).riskScore := by
          simpa [Prod.ext_iff] using hres2
        refine ⟨?_, ?_, ?_, ?_, h2, ?_⟩
        · rw [hb1, hsplit]
          simp
        · rw [hb1]
          exact help
        · rw [hb1, hb2]
        · rw [hb1, hb3]
        · rw [hsplit]
          have hfind := find_of_split (fun q =>
            YieldOracle.eligible s maxRisk minTvl now q &&
              ((s.protocolYields q).apy == ba)) l1 p l2 ?_ ?_
          · rw [hfind, hb1]
          · intro q hq
            show (YieldOracle.eligible s maxRisk minTvl now q &&
              ((s.protocolYields q).apy == ba)) = false
            by_cases helq : YieldOracle.eligible s maxRisk minTvl now q = true
            · have hlt : (s.protocolYields q).apy < ba := hbefore q hq helq
              rw [helq, Bool.true_and, beq_eq_false_iff_ne]
              omega
            · rw [Bool.not_eq_true] at helq
              rw [helq, Bool.false_and]
          · show (YieldOracle.eligible s maxRisk minTvl now p &&
              ((s.protocolYields p).apy == ba)) = true
            rw [help, Bool.true_and, beq_iff_eq]
            exact hb2.symm
    · intro hbp0
      intro p hp help
      have h1 := hub.2 p hp help
      rcases foldl_maxfirst s maxRisk minTvl now s.supportedProtocols
          ("", 0, 0) with h2 | ⟨h3, l1, q, l2, hsplit, helq, hres2, hbefore⟩
      · rw [hfold] at h2
        obtain ⟨-, hb2, -⟩ : bp = "" ∧ ba = 0 ∧ br = 0 := by
          simpa [Prod.ext_iff] using h2
        have h1b : (s.protocolYields p).apy ≤ ba := h1
        omega
      · exfalso
        rw [hfold] at hres2
        obtain ⟨hb1, -, -⟩ : bp = q ∧ ba = (s.protocolYields q).apy ∧
            br = (s.protocolYields q).riskScore := by
          simpa [Prod.ext_iff] using hres2
        apply hnil
        rw [hbp0] at hb1
        rw [hb1, hsplit]
        simp

/-- Closed instantiation of the C7 theorem on the market snapshot of
the specification: the scan over Aave, Compound, Curve and Uniswap with
risk ceiling 5 and a 100 million dollar tvl floor returns Compound at
780 bp, and the theorem certifies it as the first-registered
highest-apy filtered venue. -/
theorem C7_getBestYieldForRisk_witness :
    YieldOracle.getBestYieldForRisk marketOracle 5 (100000000 * 10 ^ 18)
      1000 = .ok ("Compound", 780, 2) ∧
    ("Compound" ∈ marketOracle.supportedProtocols ∧
      YieldOracle.eligible marketOracle 5 (100000000 * 10 ^ 18) 1000
        "Compound" = true ∧
      (marketOracle.protocolYields "Compound").apy = 780 ∧
      (marketOracle.protocolYields "Compound").riskScore = 2 ∧
      0 < 780 ∧
      marketOracle.supportedProtocols.find? (fun q =>
        YieldOracle.eligible marketOracle 5 (100000000 * 10 ^ 18) 1000 q &&
          ((marketOracle.protocolYields q).apy == 780)) =
        some "Compound") :=
  ⟨rfl,
   (C7_getBestYieldForRisk_spec marketOracle 5 (100000000 * 10 ^ 18) 1000
      "Compound" 780 2 (by decide) (by rfl)).2.1 (by decide)⟩

end DeFiAutopilot
